import Mathlib

/-!
Verification development for the FEC redundancy schedulers of the quirl
repository (`src/quiche/src/fec/*.rs`) and the disabled congestion
controllers (`src/quiche/src/recovery/.../disabled_cc.rs`).

Modelling conventions (shallow embedding of the Rust sources):
* `std::time::Instant` and `std::time::Duration` are modelled as `Nat`
  microsecond counts.  `Instant + Duration` is `Nat` addition and
  `a.duration_since b` is truncated subtraction `a - b` (Rust saturates
  to zero as well).
* Rust `usize`/`u64` arithmetic is modelled on `Nat`; `saturating_sub`
  is the truncated `Nat` subtraction.
* Environment tunables (re-read on every call in the source) are passed
  as explicit parameter records whose default field values are the
  `DEFAULT_*` constants of the source.
* The only use the sources make of the `f64` loss statistics is the
  expression `(packets_lost_per_round_trip + 2.0 * var_packets_lost_per_round_trip().ceil()) as usize`;
  it is modelled by the field `loss_based_packets : Option Nat` holding
  that already-converted value (`none` when
  `packets_lost_per_round_trip()` is `None`).
* The only encoder queries issued by the sources are
  `n_protected_symbols()`, `first_metadata()` and
  `get_sent_time(first_metadata())`; they are modelled by the fields
  `n_protected_symbols`, `first_metadata` and `first_metadata_sent_time`
  of the connection view.
-/

/-- View of a network path as consumed by the schedulers:
`path.recovery.cwnd()`, `path.recovery.cwnd_available()`,
`path.recovery.rtt()` (µs), `path.recovery.app_limited()`, the
loss-statistics abstraction described in the module header, and
`path.fec_only`. -/
structure PathView where
  cwnd : Nat
  cwnd_available : Nat
  rtt : Nat
  app_limited : Bool
  loss_based_packets : Option Nat
  fec_only : Bool
deriving Repr, DecidableEq

/-- View of the QUIC connection as consumed by the schedulers.
`dgrams_to_emit` models `conn.dgram_max_writable_len().is_some()`,
`stream_to_emit` models `conn.streams.has_flushable()`; the remaining
fields model `conn.sent_count`, `conn.sent_bytes`, `conn.tx_data`,
`conn.paths` and the encoder queries listed in the module header
(`SourceSymbolMetadata` is modelled as `Nat`). -/
structure ConnView where
  dgrams_to_emit : Bool
  stream_to_emit : Bool
  sent_count : Nat
  sent_bytes : Nat
  tx_data : Nat
  paths : List PathView
  n_protected_symbols : Nat
  first_metadata : Option Nat
  first_metadata_sent_time : Option Nat
deriving Repr, DecidableEq

/-- Shared signal `nothing_to_send := !dgrams_to_emit && !stream_to_emit`
(computed identically in every scheduler source file). -/
def ConnView.nothing_to_send (c : ConnView) : Bool :=
  !c.dgrams_to_emit && !c.stream_to_emit

/-- Shared aggregate `total_bif`: the loop
`for (_, path) in conn.paths.iter() { if !path.fec_only { total_bif += cwnd.saturating_sub(cwnd_available) } }`
appearing verbatim in the background, bursts-fec-only and cooldown
scheduler sources. -/
def ConnView.total_bif (c : ConnView) : Nat :=
  (c.paths.filter (fun p => !p.fec_only)).foldl
    (fun acc p => acc + (p.cwnd - p.cwnd_available)) 0

/-! ## Bursts scheduler (`burst_protecting_fec_scheduler.rs`) -/

/-- Tunables of the bursts scheduler, re-read from the environment on
every call in the source; defaults are the `DEFAULT_*` constants of
`burst_protecting_fec_scheduler.rs`. -/
structure BurstsParams where
  threshold_burst_size : Nat := 15000
  max_jitter : Nat := 0
  fec_frac_denominator_to_protect : Nat := 2
  minimum_room_in_cwin : Nat := 5000
deriving Repr, DecidableEq

/-- The `SendingState` struct of `burst_protecting_fec_scheduler.rs`. -/
structure SendingState where
  start_time : Nat
  «when» : Nat
  burst_start_offset : Nat
  burst_size : Nat
  repair_bytes_to_send : Nat
  repair_symbols_sent : Nat
deriving Repr, DecidableEq

/-- The `BurstsFECScheduler` struct of
`burst_protecting_fec_scheduler.rs`. -/
structure BurstsFECScheduler where
  n_repair_in_flight : Nat
  n_packets_sent_when_nothing_to_send : Nat
  n_sent_stream_bytes_sent_when_nothing_to_send : Nat
  n_sent_stream_bytes_when_last_repair : Nat
  current_burst_size : Nat
  earliest_unprotected_source_symbol_sent_time : Option Nat
  n_source_symbols_sent_since_last_repair : Nat
  state_sending_repair : Option SendingState
  next_timeout : Option Nat
deriving Repr, DecidableEq

/-- The constructor `BurstsFECScheduler::new()`. -/
def BurstsFECScheduler.new : BurstsFECScheduler where
  n_repair_in_flight := 0
  n_packets_sent_when_nothing_to_send := 0
  n_sent_stream_bytes_sent_when_nothing_to_send := 0
  n_sent_stream_bytes_when_last_repair := 0
  current_burst_size := 0
  earliest_unprotected_source_symbol_sent_time := none
  n_source_symbols_sent_since_last_repair := 0
  state_sending_repair := none
  next_timeout := none

/-- Lines 71-77 of `burst_protecting_fec_scheduler.rs`: clear the
sending round when `repair_symbols_sent*symbol_size >= repair_bytes_to_send`. -/
def bursts_clear_finished (symbol_size : Nat) (st? : Option SendingState) :
    Option SendingState :=
  match st? with
  | some st =>
      if st.repair_symbols_sent * symbol_size ≥ st.repair_bytes_to_send then
        none
      else
        some st
  | none => none

/-- Lines 91-111 of `burst_protecting_fec_scheduler.rs`: open a new
sending round when there is none, there is nothing to send and the
burst is large enough; otherwise expire any existing round after one
RTT.  `burst` is `self.current_burst_size` and `tx` is
`current_sent_stream_bytes` at that point of the call. -/
def bursts_open_or_expire (st? : Option SendingState)
    (nothing_to_send sent_enough : Bool) (now max_jitter tx burst rtt : Nat) :
    Option SendingState :=
  if st?.isNone && nothing_to_send && sent_enough then
    some { start_time := now,
           «when» := now + max_jitter,
           burst_start_offset := tx,
           burst_size := burst,
           repair_bytes_to_send := 0,
           repair_symbols_sent := 0 }
  else
    match st? with
    | some st => if now - st.start_time ≥ rtt then none else some st
    | none => none

/-- Lines 114-133 of `burst_protecting_fec_scheduler.rs`: the value
`max_repair_data` used to raise `repair_bytes_to_send`, with
`bytes_to_protect = min(bif, n_source_symbols_sent_since_last_repair * symbol_size)`. -/
def bursts_candidate_repair_bytes (bytes_in_flight n_source symbol_size denom : Nat)
    (loss : Option Nat) : Nat :=
  let bytes_to_protect := min bytes_in_flight (n_source * symbol_size)
  if bytes_to_protect < 15000 then
    bytes_to_protect * 3 / 5
  else
    let amount_to_protect_when_no_loss_info := bytes_to_protect / denom
    match loss with
    | none => amount_to_protect_when_no_loss_info
    | some lost_packets =>
        min (lost_packets * symbol_size) amount_to_protect_when_no_loss_info

/-- The method `BurstsFECScheduler::should_send_repair`, translated
statement by statement from `burst_protecting_fec_scheduler.rs`
(lines 48-160).  Returns the decision together with the updated state. -/
def BurstsFECScheduler.should_send_repair (s : BurstsFECScheduler)
    (conn : ConnView) (path : PathView) (symbol_size now : Nat)
    (p : BurstsParams) : Bool × BurstsFECScheduler :=
  let bytes_in_flight := path.cwnd - path.cwnd_available
  let nothing_to_send := conn.nothing_to_send
  let current_sent_stream_bytes := conn.tx_data
  let burst := current_sent_stream_bytes - s.n_sent_stream_bytes_sent_when_nothing_to_send
  let s := { s with current_burst_size := burst }
  let sent_enough_protected_data :=
      decide (s.current_burst_size > p.threshold_burst_size)
  let cleared := bursts_clear_finished symbol_size s.state_sending_repair
  let s := { s with state_sending_repair := cleared }
  let opened := bursts_open_or_expire s.state_sending_repair nothing_to_send
    sent_enough_protected_data now p.max_jitter current_sent_stream_bytes
    s.current_burst_size path.rtt
  let s := { s with state_sending_repair := opened }
  let s :=
    match s.state_sending_repair with
    | some st =>
        let max_repair_data := bursts_candidate_repair_bytes bytes_in_flight
          s.n_source_symbols_sent_since_last_repair symbol_size
          p.fec_frac_denominator_to_protect path.loss_based_packets
        let st := { st with repair_bytes_to_send := max st.repair_bytes_to_send max_repair_data }
        { s with state_sending_repair := some st }
    | none => s
  let s :=
    if nothing_to_send then
      { s with n_packets_sent_when_nothing_to_send := conn.sent_count,
               n_sent_stream_bytes_sent_when_nothing_to_send := conn.tx_data,
               current_burst_size := 0 }
    else s
  let should_send :=
    match s.state_sending_repair with
    | some st =>
        decide (now ≥ st.«when») &&
        decide (st.repair_symbols_sent * symbol_size < st.repair_bytes_to_send)
    | none => false
  let s :=
    if should_send then
      { s with n_sent_stream_bytes_when_last_repair := current_sent_stream_bytes }
    else
      match s.state_sending_repair with
      | some st =>
          if now < st.«when» then { s with next_timeout := some st.«when» }
          else { s with next_timeout := none }
      | none => { s with next_timeout := none }
  (should_send, s)

/-- The method `BurstsFECScheduler::sent_repair_symbol`
(lines 162-169 of the source). -/
def BurstsFECScheduler.sent_repair_symbol (s : BurstsFECScheduler) :
    BurstsFECScheduler :=
  let s := { s with n_repair_in_flight := s.n_repair_in_flight + 1,
                    earliest_unprotected_source_symbol_sent_time := none,
                    n_source_symbols_sent_since_last_repair := 0 }
  match s.state_sending_repair with
  | some st =>
      let st := { st with repair_symbols_sent := st.repair_symbols_sent + 1 }
      { s with state_sending_repair := some st }
  | none => s

/-- The method `BurstsFECScheduler::acked_repair_symbol` (`n_repair_in_flight -= 1`;
Rust `u64` subtraction, well-defined only when the counter is positive,
which `bursts_underflow_free` tracks). -/
def BurstsFECScheduler.acked_repair_symbol (s : BurstsFECScheduler) :
    BurstsFECScheduler :=
  { s with n_repair_in_flight := s.n_repair_in_flight - 1 }

/-- The method `BurstsFECScheduler::lost_repair_symbol`, which just calls
`acked_repair_symbol`. -/
def BurstsFECScheduler.lost_repair_symbol (s : BurstsFECScheduler) :
    BurstsFECScheduler :=
  s.acked_repair_symbol

/-- The method `BurstsFECScheduler::sent_source_symbol`
(lines 175-205 of the source); `now` is the call instant and the
encoder arguments come from the connection view. -/
def BurstsFECScheduler.sent_source_symbol (s : BurstsFECScheduler)
    (conn : ConnView) (now : Nat) (p : BurstsParams) : BurstsFECScheduler :=
  let s :=
    match s.earliest_unprotected_source_symbol_sent_time with
    | none =>
        if s.current_burst_size > p.threshold_burst_size then
          { s with earliest_unprotected_source_symbol_sent_time := some now }
        else s
    | some sent_time =>
        match conn.first_metadata with
        | some _ =>
            if now > sent_time + p.max_jitter &&
               s.current_burst_size > p.threshold_burst_size then
              { s with earliest_unprotected_source_symbol_sent_time := some now }
            else
              match conn.first_metadata_sent_time with
              | some window_sent_time =>
                  if window_sent_time > sent_time then
                    { s with earliest_unprotected_source_symbol_sent_time := some window_sent_time }
                  else s
              | none => s
        | none => s
  { s with n_source_symbols_sent_since_last_repair := s.n_source_symbols_sent_since_last_repair + 1 }

/-- The method `BurstsFECScheduler::timeout`. -/
def BurstsFECScheduler.timeout (s : BurstsFECScheduler) : Option Nat :=
  s.next_timeout

/-! ## Background scheduler (`background_fec_scheduler.rs`) -/

/-- The constant `REPAIR_TO_SEND_WITH_NO_LOSS_INFO` of
`background_fec_scheduler.rs`. -/
def REPAIR_TO_SEND_WITH_NO_LOSS_INFO : Nat := 5

/-- The `BackgroundFECScheduler` struct of `background_fec_scheduler.rs`
(`delaying_duration` in µs, default `DEFAULT_DELAYING_DURATION` = 2 ms). -/
structure BackgroundFECScheduler where
  delaying_duration : Nat
  n_repair_in_flight : Nat
  rs_triggering_time : Option Nat
  rs_sent_for_this_round : Bool
deriving Repr, DecidableEq

/-- The constructor `BackgroundFECScheduler::new()`. -/
def BackgroundFECScheduler.new : BackgroundFECScheduler where
  delaying_duration := 2000
  n_repair_in_flight := 0
  rs_triggering_time := none
  rs_sent_for_this_round := false

/-- The method `BackgroundFECScheduler::reset_rs_delaying`. -/
def BackgroundFECScheduler.reset_rs_delaying (s : BackgroundFECScheduler) :
    BackgroundFECScheduler :=
  { s with rs_triggering_time := none, rs_sent_for_this_round := false }

/-- Lines 43-64 of `background_fec_scheduler.rs`: the protection budget
`max_repair_data` computed from
`total_bif := min(n_protected_symbols*symbol_size, sum of bif over non-fec-only paths)`. -/
def background_max_repair_data (conn : ConnView) (path : PathView)
    (symbol_size : Nat) : Nat :=
  let total_bif := min (conn.n_protected_symbols * symbol_size) conn.total_bif
  if total_bif < symbol_size then
    0
  else if total_bif < 15000 then
    total_bif * 3 / 5
  else
    match path.loss_based_packets with
    | none => min (REPAIR_TO_SEND_WITH_NO_LOSS_INFO * symbol_size) (total_bif / 4)
    | some lost_packets => min (lost_packets * symbol_size) (total_bif / 3)

/-- Line 68 of `background_fec_scheduler.rs`:
`repair_symbol_required = !dgrams_to_emit && !stream_to_emit && n_repair_in_flight*symbol_size < max_repair_data`. -/
def background_repair_required (s : BackgroundFECScheduler)
    (conn : ConnView) (path : PathView) (symbol_size : Nat) : Bool :=
  !conn.dgrams_to_emit && !conn.stream_to_emit &&
    decide (s.n_repair_in_flight * symbol_size <
      background_max_repair_data conn path symbol_size)

/-- The method `BackgroundFECScheduler::should_send_repair`
(lines 31-84 of the source).  `delay_env` models the optional
`DEBUG_QUICHE_FEC_BACKGROUND_DELAYING_DURATION_US` override, which
replaces `delaying_duration` only when the variable is set. -/
def BackgroundFECScheduler.should_send_repair (s : BackgroundFECScheduler)
    (conn : ConnView) (path : PathView) (symbol_size now : Nat)
    (delay_env : Option Nat) : Bool × BackgroundFECScheduler :=
  let s :=
    match delay_env with
    | some d => { s with delaying_duration := d }
    | none => s
  let repair_symbol_required := background_repair_required s conn path symbol_size
  if !repair_symbol_required then
    (false, s.reset_rs_delaying)
  else
    let s :=
      if s.rs_triggering_time.isNone then
        { s with rs_triggering_time := some now, rs_sent_for_this_round := false }
      else s
    let waited_enough :=
      s.rs_triggering_time.isSome &&
        decide (now ≥ s.rs_triggering_time.getD 0 + s.delaying_duration)
    (repair_symbol_required && waited_enough, s)

/-- The method `BackgroundFECScheduler::sent_repair_symbol`. -/
def BackgroundFECScheduler.sent_repair_symbol (s : BackgroundFECScheduler) :
    BackgroundFECScheduler :=
  { s with n_repair_in_flight := s.n_repair_in_flight + 1,
           rs_sent_for_this_round := true }

/-- The method `BackgroundFECScheduler::acked_repair_symbol`. -/
def BackgroundFECScheduler.acked_repair_symbol (s : BackgroundFECScheduler) :
    BackgroundFECScheduler :=
  { s with n_repair_in_flight := s.n_repair_in_flight - 1 }

/-- The method `BackgroundFECScheduler::sent_source_symbol`. -/
def BackgroundFECScheduler.sent_source_symbol (s : BackgroundFECScheduler) :
    BackgroundFECScheduler :=
  s.reset_rs_delaying

/-- The method `BackgroundFECScheduler::lost_repair_symbol`. -/
def BackgroundFECScheduler.lost_repair_symbol (s : BackgroundFECScheduler) :
    BackgroundFECScheduler :=
  s.acked_repair_symbol

/-- The method `BackgroundFECScheduler::timeout`. -/
def BackgroundFECScheduler.timeout (s : BackgroundFECScheduler) : Option Nat :=
  if s.rs_sent_for_this_round then
    none
  else
    match s.rs_triggering_time with
    | some triggering_time => some (triggering_time + s.delaying_duration)
    | none => none

/-! ## Bursts-on-FEC-only scheduler
(`burst_protecting_fec_scheduler_with_fec_only.rs`) -/

/-- Tunables of the bursts-on-FEC-only scheduler (defaults from its
local `DEFAULT_*` constants). -/
structure BurstsFECOnlyParams where
  burst_size : Nat := 15000
  fec_cooldown : Nat := 0
  fec_frac_denominator_to_protect : Nat := 2
deriving Repr, DecidableEq

/-- The `SendingState` struct of
`burst_protecting_fec_scheduler_with_fec_only.rs`. -/
structure FECOnlySendingState where
  start_time : Nat
  max_sending_repair_bytes : Nat
deriving Repr, DecidableEq

/-- The `BurstsFECSchedulerWithFECOnly` struct of
`burst_protecting_fec_scheduler_with_fec_only.rs`. -/
structure BurstsFECSchedulerWithFECOnly where
  n_repair_in_flight : Nat
  n_bytes_sent_when_nothing_to_send : Nat
  n_sent_bytes_when_last_repair : Nat
  first_source_symbol_in_burst_sent_time : Option Nat
  state_sending_repair : Option FECOnlySendingState
deriving Repr, DecidableEq

/-- The constructor `BurstsFECSchedulerWithFECOnly::new()`. -/
def BurstsFECSchedulerWithFECOnly.new : BurstsFECSchedulerWithFECOnly where
  n_repair_in_flight := 0
  n_bytes_sent_when_nothing_to_send := 0
  n_sent_bytes_when_last_repair := 0
  first_source_symbol_in_burst_sent_time := none
  state_sending_repair := none

/-- The method `BurstsFECSchedulerWithFECOnly::should_send_repair`
(lines 29-95 of the source). -/
def BurstsFECSchedulerWithFECOnly.should_send_repair
    (s : BurstsFECSchedulerWithFECOnly) (conn : ConnView) (path : PathView)
    (symbol_size now : Nat) (p : BurstsFECOnlyParams) :
    Bool × BurstsFECSchedulerWithFECOnly :=
  if !path.fec_only then
    (false, s)
  else
    let total_bif := conn.total_bif
    let nothing_to_send := conn.nothing_to_send
    let current_sent_bytes := conn.sent_bytes
    let sent_enough_protected_data :=
      decide (current_sent_bytes - s.n_bytes_sent_when_nothing_to_send > p.burst_size)
    let new_state :=
      match s.state_sending_repair with
      | some st =>
          if now - st.start_time > path.rtt then none else some st
      | none =>
          let cooldown_ok :=
            s.first_source_symbol_in_burst_sent_time.isNone ||
              decide (now > s.first_source_symbol_in_burst_sent_time.getD 0 + p.fec_cooldown)
          if sent_enough_protected_data && cooldown_ok then
            let bytes_to_protect :=
              min total_bif (current_sent_bytes - s.n_sent_bytes_when_last_repair)
            let max_repair_data :=
              if bytes_to_protect < 15000 then
                bytes_to_protect * 3 / 5
              else
                bytes_to_protect / p.fec_frac_denominator_to_protect
            some { start_time := now, max_sending_repair_bytes := max_repair_data }
          else
            none
    let s := { s with state_sending_repair := new_state }
    let s :=
      if nothing_to_send then
        { s with n_bytes_sent_when_nothing_to_send := conn.sent_bytes }
      else s
    let should_send :=
      match s.state_sending_repair with
      | some st => decide (s.n_repair_in_flight * symbol_size < st.max_sending_repair_bytes)
      | none => false
    let s :=
      if should_send then
        { s with n_sent_bytes_when_last_repair := current_sent_bytes }
      else s
    (should_send, s)

/-- The method `BurstsFECSchedulerWithFECOnly::sent_repair_symbol`. -/
def BurstsFECSchedulerWithFECOnly.sent_repair_symbol
    (s : BurstsFECSchedulerWithFECOnly) : BurstsFECSchedulerWithFECOnly :=
  { s with n_repair_in_flight := s.n_repair_in_flight + 1,
           first_source_symbol_in_burst_sent_time := none }

/-- The method `BurstsFECSchedulerWithFECOnly::acked_repair_symbol`. -/
def BurstsFECSchedulerWithFECOnly.acked_repair_symbol
    (s : BurstsFECSchedulerWithFECOnly) : BurstsFECSchedulerWithFECOnly :=
  { s with n_repair_in_flight := s.n_repair_in_flight - 1 }

/-- The method `BurstsFECSchedulerWithFECOnly::sent_source_symbol`. -/
def BurstsFECSchedulerWithFECOnly.sent_source_symbol
    (s : BurstsFECSchedulerWithFECOnly) (now : Nat) :
    BurstsFECSchedulerWithFECOnly :=
  match s.first_source_symbol_in_burst_sent_time with
  | none => { s with first_source_symbol_in_burst_sent_time := some now }
  | some _ => s

/-- The method `BurstsFECSchedulerWithFECOnly::lost_repair_symbol`. -/
def BurstsFECSchedulerWithFECOnly.lost_repair_symbol
    (s : BurstsFECSchedulerWithFECOnly) : BurstsFECSchedulerWithFECOnly :=
  s.acked_repair_symbol

/-! ## Cooldown-on-FEC-only scheduler
(`cooldown_fec_scheduler_with_fec_only.rs`) -/

/-- Tunables of the cooldown scheduler (defaults from its local
`DEFAULT_*` constants). -/
structure CooldownParams where
  burst_size : Nat := 15000
  fec_cooldown : Nat := 0
  fec_frac_denominator_to_protect : Nat := 2
  minimum_room_in_cwin : Nat := 5000
  bandwidth_probing_bps : Nat := 0
deriving Repr, DecidableEq

/-- The `SendingState` struct of
`cooldown_fec_scheduler_with_fec_only.rs`. -/
structure CooldownSendingState where
  first_protected_metadata_for_epoch : Option Nat
deriving Repr, DecidableEq

/-- The `CooldownFECSchedulerWithFECOnly` struct of
`cooldown_fec_scheduler_with_fec_only.rs`. -/
structure CooldownFECSchedulerWithFECOnly where
  n_repair_in_flight : Nat
  n_packets_sent_when_nothing_to_send : Nat
  n_bytes_sent_when_nothing_to_send : Nat
  first_source_symbol_in_burst_sent_time : Option Nat
  state_sending_repair : Option CooldownSendingState
deriving Repr, DecidableEq

/-- The constructor `CooldownFECSchedulerWithFECOnly::new()`. -/
def CooldownFECSchedulerWithFECOnly.new : CooldownFECSchedulerWithFECOnly where
  n_repair_in_flight := 0
  n_packets_sent_when_nothing_to_send := 0
  n_bytes_sent_when_nothing_to_send := 0
  first_source_symbol_in_burst_sent_time := none
  state_sending_repair := none

/-- Line 70 of `cooldown_fec_scheduler_with_fec_only.rs`:
`should_probe = app_limited() && 8.0*(total_bif as f64)/rtt().as_secs_f64() < bandwidth_probing_bps as f64`.
With `rtt` in µs the float comparison `8*total_bif/(rtt/10^6) < bps` is
rendered exactly as `8 * total_bif * 1000000 < bps * rtt`; for `rtt = 0`
both readings (IEEE `inf`/`NaN` comparison and the rendering below) are
false. -/
def cooldown_should_probe (conn : ConnView) (path : PathView)
    (bandwidth_probing_bps : Nat) : Bool :=
  path.app_limited &&
    decide (8 * conn.total_bif * 1000000 < bandwidth_probing_bps * path.rtt)

/-- Lines 74-79 of `cooldown_fec_scheduler_with_fec_only.rs`: the
protection budget with `bytes_to_protect = total_bif`. -/
def cooldown_max_repair_data (bytes_to_protect denom : Nat) : Nat :=
  if bytes_to_protect < 15000 then
    bytes_to_protect * 3 / 5
  else
    bytes_to_protect / denom

/-- The method `CooldownFECSchedulerWithFECOnly::should_send_repair`
(lines 30-102 of the source). -/
def CooldownFECSchedulerWithFECOnly.should_send_repair
    (s : CooldownFECSchedulerWithFECOnly) (conn : ConnView) (path : PathView)
    (symbol_size now : Nat) (p : CooldownParams) :
    Bool × CooldownFECSchedulerWithFECOnly :=
  if !path.fec_only then
    (false, s)
  else
    let s :=
      match s.state_sending_repair with
      | some st =>
          if conn.first_metadata ≠ st.first_protected_metadata_for_epoch then
            { s with state_sending_repair := none }
          else s
      | none => s
    let total_bif := conn.total_bif
    let cwin_available := path.cwnd_available
    let enough_room_in_cwin := decide (cwin_available > p.minimum_room_in_cwin)
    let nothing_to_send := conn.nothing_to_send
    let sent_enough_protected_data :=
      decide (conn.n_protected_symbols * symbol_size > p.burst_size)
    let should_probe := cooldown_should_probe conn path p.bandwidth_probing_bps
    let cooldown_ok :=
      s.first_source_symbol_in_burst_sent_time.isNone ||
        decide (now > s.first_source_symbol_in_burst_sent_time.getD 0 + p.fec_cooldown)
    let max_repair_data :=
      cooldown_max_repair_data total_bif p.fec_frac_denominator_to_protect
    let s :=
      if s.state_sending_repair.isNone && nothing_to_send &&
         sent_enough_protected_data && enough_room_in_cwin && cooldown_ok then
        let st : CooldownSendingState :=
          { first_protected_metadata_for_epoch := conn.first_metadata }
        { s with state_sending_repair := some st }
      else s
    let s :=
      if nothing_to_send then
        { s with n_packets_sent_when_nothing_to_send := conn.sent_count,
                 n_bytes_sent_when_nothing_to_send := conn.sent_bytes }
      else s
    let should_send :=
      should_probe ||
        (enough_room_in_cwin &&
          decide (s.n_repair_in_flight * symbol_size < max_repair_data))
    (should_send, s)

/-- The method `CooldownFECSchedulerWithFECOnly::sent_repair_symbol`. -/
def CooldownFECSchedulerWithFECOnly.sent_repair_symbol
    (s : CooldownFECSchedulerWithFECOnly) : CooldownFECSchedulerWithFECOnly :=
  { s with n_repair_in_flight := s.n_repair_in_flight + 1,
           first_source_symbol_in_burst_sent_time := none }

/-- The method `CooldownFECSchedulerWithFECOnly::acked_repair_symbol`. -/
def CooldownFECSchedulerWithFECOnly.acked_repair_symbol
    (s : CooldownFECSchedulerWithFECOnly) : CooldownFECSchedulerWithFECOnly :=
  { s with n_repair_in_flight := s.n_repair_in_flight - 1 }

/-- The method `CooldownFECSchedulerWithFECOnly::sent_source_symbol`. -/
def CooldownFECSchedulerWithFECOnly.sent_source_symbol
    (s : CooldownFECSchedulerWithFECOnly) (now : Nat) :
    CooldownFECSchedulerWithFECOnly :=
  match s.first_source_symbol_in_burst_sent_time with
  | none => { s with first_source_symbol_in_burst_sent_time := some now }
  | some _ => s

/-- The method `CooldownFECSchedulerWithFECOnly::lost_repair_symbol`. -/
def CooldownFECSchedulerWithFECOnly.lost_repair_symbol
    (s : CooldownFECSchedulerWithFECOnly) : CooldownFECSchedulerWithFECOnly :=
  s.acked_repair_symbol

/-! ## Disabled congestion controllers
(`recovery/disabled_cc.rs` and `recovery/congestion/disabled_cc.rs`) -/

/-- The value `std::usize::MAX` on a 64-bit target. -/
def USIZE_MAX : Nat := 2 ^ 64 - 1

/-- The fields of the recovery context read or written by the older
disabled congestion controller (`recovery/disabled_cc.rs`). -/
structure Recovery where
  bytes_in_flight : Nat
  congestion_window : Nat
  ssthresh : Nat
  bytes_acked_sl : Nat
  bytes_acked_ca : Nat
  app_limited : Bool
deriving Repr, DecidableEq

/-- An acked packet as consumed by `on_packet_acked` of
`recovery/disabled_cc.rs`.  `in_congestion_recovery` models the
external call `r.in_congestion_recovery(packet.time_sent)` and
`hystart_css_ended` the external call
`r.hystart.on_packet_acked(epoch, packet, latest_rtt, now)`; both
functions live outside the given sources. -/
structure AckedPacket where
  size : Nat
  in_congestion_recovery : Bool
  hystart_css_ended : Bool
deriving Repr, DecidableEq

/-- The function `on_packet_acked` of `recovery/disabled_cc.rs`
(lines 69-102). -/
def disabled_cc_on_packet_acked (r : Recovery) (packet : AckedPacket) :
    Recovery :=
  let r := { r with bytes_in_flight := r.bytes_in_flight - packet.size }
  if packet.in_congestion_recovery then
    r
  else if r.app_limited then
    r
  else if r.congestion_window < r.ssthresh then
    let r := { r with bytes_acked_sl := r.bytes_acked_sl + packet.size,
                      congestion_window := USIZE_MAX - 1 }
    if packet.hystart_css_ended then
      { r with ssthresh := r.congestion_window }
    else
      r
  else
    let r := { r with bytes_acked_ca := r.bytes_acked_ca + packet.size }
    if r.bytes_acked_ca ≥ r.congestion_window then
      { r with bytes_acked_ca := r.bytes_acked_ca - r.congestion_window,
               congestion_window := USIZE_MAX - 1 }
    else
      r

/-- The function `congestion_event` of `recovery/disabled_cc.rs`
(lines 104-109). -/
def disabled_cc_congestion_event (r : Recovery) : Recovery :=
  { r with congestion_window := USIZE_MAX - 1 }

/-- The function `collapse_cwnd` of `recovery/disabled_cc.rs`. -/
def disabled_cc_collapse_cwnd (r : Recovery) : Recovery :=
  { r with congestion_window := USIZE_MAX - 1 }

/-- The fields of the congestion context touched by the newer disabled
congestion controller (`recovery/congestion/disabled_cc.rs`). -/
structure Congestion where
  congestion_window : Nat
deriving Repr, DecidableEq

/-- The function `on_packet_acked` of
`recovery/congestion/disabled_cc.rs` (lines 68-72): its body is empty. -/
def congestion_disabled_cc_on_packet_acked (r : Congestion)
    (_packet : AckedPacket) : Congestion :=
  r

/-- The function `congestion_event` of
`recovery/congestion/disabled_cc.rs` (lines 74-79). -/
def congestion_disabled_cc_congestion_event (r : Congestion) : Congestion :=
  { r with congestion_window := USIZE_MAX - 1 }

/-! ## Algorithm enum and name parsing (`fec_scheduler.rs`) -/

/-- The enum `FECSchedulerAlgorithm` of `fec_scheduler.rs` with its
`repr(C)` discriminant values exposed by `discriminant`. -/
inductive FECSchedulerAlgorithm where
  | NoRedundancy
  | BackgroundOnly
  | BurstsOnly
  | BurstsOnlyOnFECOnlyPath
  | CooldownOnFECOnlyPath
deriving Repr, DecidableEq

/-- The integer discriminant assigned to each variant in the source
(`NoRedundancy = 0, ..., CooldownOnFECOnlyPath = 4`). -/
def FECSchedulerAlgorithm.discriminant : FECSchedulerAlgorithm → Nat
  | .NoRedundancy => 0
  | .BackgroundOnly => 1
  | .BurstsOnly => 2
  | .BurstsOnlyOnFECOnlyPath => 3
  | .CooldownOnFECOnlyPath => 4

/-- The error kind returned by the parser; `crate::Error` has further
variants elsewhere in the repository, but `FECScheduler` is the only
one this module produces. -/
inductive QuicheError where
  | FECScheduler
deriving Repr, DecidableEq

/-- The function `FECSchedulerAlgorithm::from_str` of `fec_scheduler.rs`
(lines 42-52). -/
def FECSchedulerAlgorithm.from_str (name : String) :
    Except QuicheError FECSchedulerAlgorithm :=
  if name = "noredundancy" then .ok .NoRedundancy
  else if name = "background" then .ok .BackgroundOnly
  else if name = "bursts" then .ok .BurstsOnly
  else if name = "bursts_feconly" then .ok .BurstsOnlyOnFECOnlyPath
  else if name = "cooldown_feconly" then .ok .CooldownOnFECOnlyPath
  else .error .FECScheduler

/-! ## Repair-symbol event traces

The emission loop notifies a scheduler of each emitted repair symbol
(`sent_repair_symbol`) and of the eventual fate of each
(`acked_repair_symbol` or `lost_repair_symbol`).  The following trace
machinery lets us reason about `n_repair_in_flight` across arbitrary
legal sequences of those notifications. -/

/-- One notification about a repair symbol. -/
inductive RepairEvent where
  | sent
  | acked
  | lost
deriving Repr, DecidableEq

/-- Number of `sent` notifications in a trace. -/
def countSentEvents : List RepairEvent → Nat
  | [] => 0
  | .sent :: tr => countSentEvents tr + 1
  | .acked :: tr => countSentEvents tr
  | .lost :: tr => countSentEvents tr

/-- Number of `acked` or `lost` notifications in a trace. -/
def countDoneEvents : List RepairEvent → Nat
  | [] => 0
  | .sent :: tr => countDoneEvents tr
  | .acked :: tr => countDoneEvents tr + 1
  | .lost :: tr => countDoneEvents tr + 1

/-- Run of the in-flight counter over a trace, starting from `n`
(Rust `u64` increments and decrements). -/
def runInFlight : Nat → List RepairEvent → Nat
  | n, [] => n
  | n, .sent :: tr => runInFlight (n + 1) tr
  | n, .acked :: tr => runInFlight (n - 1) tr
  | n, .lost :: tr => runInFlight (n - 1) tr

/-- True when every decrement of the in-flight counter along the trace
happens while the counter is positive, i.e. the `u64` counter starting
at `n` never underflows. -/
def underflowFree : Nat → List RepairEvent → Bool
  | _, [] => true
  | n, .sent :: tr => underflowFree (n + 1) tr
  | n, .acked :: tr => decide (0 < n) && underflowFree (n - 1) tr
  | n, .lost :: tr => decide (0 < n) && underflowFree (n - 1) tr

/-- A trace is legal when each `acked`/`lost` notification is matched by
a distinct preceding `sent` notification: every prefix contains at
least as many `sent` as `acked`-or-`lost` events. -/
def legalEventTrace (tr : List RepairEvent) : Prop :=
  ∀ k : Nat, countDoneEvents (tr.take k) ≤ countSentEvents (tr.take k)

instance : DecidablePred legalEventTrace := fun tr => by
  have h : legalEventTrace tr ↔
      ∀ k ∈ Finset.range (tr.length + 1),
        countDoneEvents (tr.take k) ≤ countSentEvents (tr.take k) := by
    constructor
    · intro h k _; exact h k
    · intro h k
      by_cases hk : k ≤ tr.length
      · exact h k (Finset.mem_range.mpr (Nat.lt_succ_of_le hk))
      · have := h tr.length (Finset.mem_range.mpr (Nat.lt_succ_self _))
        simpa [List.take_of_length_le (Nat.le_of_not_le hk),
               List.take_length] using this
  exact decidable_of_iff' _ h

/-- Dispatch of one notification to the bursts scheduler. -/
def BurstsFECScheduler.apply_repair_event (s : BurstsFECScheduler) :
    RepairEvent → BurstsFECScheduler
  | .sent => s.sent_repair_symbol
  | .acked => s.acked_repair_symbol
  | .lost => s.lost_repair_symbol

/-- Fold of a notification trace over the bursts scheduler. -/
def BurstsFECScheduler.apply_repair_events (s : BurstsFECScheduler)
    (tr : List RepairEvent) : BurstsFECScheduler :=
  tr.foldl BurstsFECScheduler.apply_repair_event s

/-- Dispatch of one notification to the background scheduler. -/
def BackgroundFECScheduler.apply_repair_event (s : BackgroundFECScheduler) :
    RepairEvent → BackgroundFECScheduler
  | .sent => s.sent_repair_symbol
  | .acked => s.acked_repair_symbol
  | .lost => s.lost_repair_symbol

/-- Fold of a notification trace over the background scheduler. -/
def BackgroundFECScheduler.apply_repair_events (s : BackgroundFECScheduler)
    (tr : List RepairEvent) : BackgroundFECScheduler :=
  tr.foldl BackgroundFECScheduler.apply_repair_event s

/-- Dispatch of one notification to the bursts-on-FEC-only scheduler. -/
def BurstsFECSchedulerWithFECOnly.apply_repair_event
    (s : BurstsFECSchedulerWithFECOnly) :
    RepairEvent → BurstsFECSchedulerWithFECOnly
  | .sent => s.sent_repair_symbol
  | .acked => s.acked_repair_symbol
  | .lost => s.lost_repair_symbol

/-- Fold of a notification trace over the bursts-on-FEC-only scheduler. -/
def BurstsFECSchedulerWithFECOnly.apply_repair_events
    (s : BurstsFECSchedulerWithFECOnly) (tr : List RepairEvent) :
    BurstsFECSchedulerWithFECOnly :=
  tr.foldl BurstsFECSchedulerWithFECOnly.apply_repair_event s

/-- Dispatch of one notification to the cooldown scheduler. -/
def CooldownFECSchedulerWithFECOnly.apply_repair_event
    (s : CooldownFECSchedulerWithFECOnly) :
    RepairEvent → CooldownFECSchedulerWithFECOnly
  | .sent => s.sent_repair_symbol
  | .acked => s.acked_repair_symbol
  | .lost => s.lost_repair_symbol

/-- Fold of a notification trace over the cooldown scheduler. -/
def CooldownFECSchedulerWithFECOnly.apply_repair_events
    (s : CooldownFECSchedulerWithFECOnly) (tr : List RepairEvent) :
    CooldownFECSchedulerWithFECOnly :=
  tr.foldl CooldownFECSchedulerWithFECOnly.apply_repair_event s

/-! ## Concrete fixtures used by counterexamples and seed scenarios -/

/-- A data path with 1000 bytes in flight and a one-second RTT. -/
def path_small : PathView where
  cwnd := 1000
  cwnd_available := 0
  rtt := 1000000
  app_limited := false
  loss_based_packets := none
  fec_only := false

/-- An idle connection that has sent 16000 bytes of stream data. -/
def conn_idle : ConnView where
  dgrams_to_emit := false
  stream_to_emit := false
  sent_count := 0
  sent_bytes := 0
  tx_data := 16000
  paths := [path_small]
  n_protected_symbols := 0
  first_metadata := none
  first_metadata_sent_time := none

/-- The idle connection after a stream becomes flushable again. -/
def conn_streaming : ConnView :=
  { conn_idle with stream_to_emit := true }

/-- The seed-scenario data path of claim C5: `cwnd = 120000`,
`cwnd_available = 20000`, hence 100000 bytes in flight. -/
def path_bg : PathView where
  cwnd := 120000
  cwnd_available := 20000
  rtt := 50000
  app_limited := false
  loss_based_packets := none
  fec_only := false

/-- The seed-scenario connection of claim C5 (idle, 100 protected
symbols of 1200 bytes). -/
def conn_bg : ConnView where
  dgrams_to_emit := false
  stream_to_emit := false
  sent_count := 0
  sent_bytes := 0
  tx_data := 0
  paths := [path_bg]
  n_protected_symbols := 100
  first_metadata := none
  first_metadata_sent_time := none

/-- An app-limited FEC-only path with spare congestion-window room. -/
def path_probe : PathView where
  cwnd := 10000
  cwnd_available := 6000
  rtt := 100000
  app_limited := true
  loss_based_packets := none
  fec_only := true

/-- An idle connection seen from the FEC-only path: 20 protected
symbols, current epoch `some 7`, no data path in flight. -/
def conn_probe : ConnView where
  dgrams_to_emit := false
  stream_to_emit := false
  sent_count := 0
  sent_bytes := 0
  tx_data := 0
  paths := [path_probe]
  n_protected_symbols := 20
  first_metadata := some 7
  first_metadata_sent_time := none

/-- A non-app-limited FEC-only path with spare room. -/
def path_fec_quiet : PathView :=
  { path_probe with app_limited := false }

/-- A connection with one data path holding 1000 bytes in flight and
one FEC-only path. -/
def conn_two_paths : ConnView where
  dgrams_to_emit := false
  stream_to_emit := false
  sent_count := 0
  sent_bytes := 0
  tx_data := 0
  paths := [path_small, path_fec_quiet]
  n_protected_symbols := 20
  first_metadata := none
  first_metadata_sent_time := none

/-! ## Helper lemmas -/

lemma countSentEvents_take_succ_cons (e : RepairEvent) (tr : List RepairEvent)
    (k : Nat) : (e :: tr).take (k + 1) = e :: tr.take k := by
  simp [List.take_succ_cons]

lemma trace_counter_run (tr : List RepairEvent) :
    ∀ n off : Nat,
      (∀ k, countDoneEvents (tr.take k) ≤ off + countSentEvents (tr.take k)) →
      off ≤ n →
      underflowFree n tr = true ∧
      runInFlight n tr + countDoneEvents tr = n + countSentEvents tr := by
  induction tr with
  | nil =>
      intro n off _ _
      simp [underflowFree, runInFlight, countDoneEvents, countSentEvents]
  | cons e tr ih =>
      intro n off h hoff
      cases e with
      | sent =>
          have h' : ∀ k, countDoneEvents (tr.take k) ≤
              (off + 1) + countSentEvents (tr.take k) := by
            intro k
            have := h (k + 1)
            simpa [List.take_succ_cons, countDoneEvents, countSentEvents,
                   Nat.add_assoc, Nat.add_comm, Nat.add_left_comm] using this
          have hrec := ih (n + 1) (off + 1) h' (by omega)
          refine ⟨?_, ?_⟩
          · simpa [underflowFree] using hrec.1
          · have := hrec.2
            simp only [runInFlight, countDoneEvents, countSentEvents]
            omega
      | acked =>
          have h1 := h 1
          simp only [List.take_succ_cons, List.take_zero, countDoneEvents,
                     countSentEvents] at h1
          have hoffpos : 1 ≤ off := by omega
          have h' : ∀ k, countDoneEvents (tr.take k) ≤
              (off - 1) + countSentEvents (tr.take k) := by
            intro k
            have := h (k + 1)
            simp only [List.take_succ_cons, countDoneEvents, countSentEvents]
              at this
            omega
          have hrec := ih (n - 1) (off - 1) h' (by omega)
          have hpos : 0 < n := by omega
          refine ⟨?_, ?_⟩
          · simp only [underflowFree, Bool.and_eq_true, decide_eq_true_eq]
            exact ⟨hpos, hrec.1⟩
          · have := hrec.2
            simp only [runInFlight, countDoneEvents, countSentEvents]
            omega
      | lost =>
          have h1 := h 1
          simp only [List.take_succ_cons, List.take_zero, countDoneEvents,
                     countSentEvents] at h1
          have hoffpos : 1 ≤ off := by omega
          have h' : ∀ k, countDoneEvents (tr.take k) ≤
              (off - 1) + countSentEvents (tr.take k) := by
            intro k
            have := h (k + 1)
            simp only [List.take_succ_cons, countDoneEvents, countSentEvents]
              at this
            omega
          have hrec := ih (n - 1) (off - 1) h' (by omega)
          have hpos : 0 < n := by omega
          refine ⟨?_, ?_⟩
          · simp only [underflowFree, Bool.and_eq_true, decide_eq_true_eq]
            exact ⟨hpos, hrec.1⟩
          · have := hrec.2
            simp only [runInFlight, countDoneEvents, countSentEvents]
            omega

lemma bursts_sent_repair_symbol_in_flight (s : BurstsFECScheduler) :
    s.sent_repair_symbol.n_repair_in_flight = s.n_repair_in_flight + 1 := by
  cases h : s.state_sending_repair <;>
    simp [BurstsFECScheduler.sent_repair_symbol, h]

lemma bursts_apply_repair_events_in_flight (tr : List RepairEvent) :
    ∀ s : BurstsFECScheduler,
      (s.apply_repair_events tr).n_repair_in_flight =
        runInFlight s.n_repair_in_flight tr := by
  induction tr with
  | nil => intro s; rfl
  | cons e tr ih =>
      intro s
      cases e with
      | sent =>
          have hstep : (s.apply_repair_event RepairEvent.sent).n_repair_in_flight =
              s.n_repair_in_flight + 1 := bursts_sent_repair_symbol_in_flight s
          calc (s.apply_repair_events (RepairEvent.sent :: tr)).n_repair_in_flight
              = ((s.apply_repair_event RepairEvent.sent).apply_repair_events tr).n_repair_in_flight := rfl
            _ = runInFlight (s.apply_repair_event RepairEvent.sent).n_repair_in_flight tr := ih _
            _ = runInFlight (s.n_repair_in_flight + 1) tr := by rw [hstep]
            _ = runInFlight s.n_repair_in_flight (RepairEvent.sent :: tr) := rfl
      | acked =>
          calc (s.apply_repair_events (RepairEvent.acked :: tr)).n_repair_in_flight
              = ((s.apply_repair_event RepairEvent.acked).apply_repair_events tr).n_repair_in_flight := rfl
            _ = runInFlight (s.apply_repair_event RepairEvent.acked).n_repair_in_flight tr := ih _
            _ = runInFlight s.n_repair_in_flight (RepairEvent.acked :: tr) := rfl
      | lost =>
          calc (s.apply_repair_events (RepairEvent.lost :: tr)).n_repair_in_flight
              = ((s.apply_repair_event RepairEvent.lost).apply_repair_events tr).n_repair_in_flight := rfl
            _ = runInFlight (s.apply_repair_event RepairEvent.lost).n_repair_in_flight tr := ih _
            _ = runInFlight s.n_repair_in_flight (RepairEvent.lost :: tr) := rfl

lemma background_apply_repair_events_in_flight (tr : List RepairEvent) :
    ∀ s : BackgroundFECScheduler,
      (s.apply_repair_events tr).n_repair_in_flight =
        runInFlight s.n_repair_in_flight tr := by
  induction tr with
  | nil => intro s; rfl
  | cons e tr ih =>
      intro s
      cases e with
      | sent => exact (ih _).trans rfl
      | acked => exact (ih _).trans rfl
      | lost => exact (ih _).trans rfl

lemma fec_only_apply_repair_events_in_flight (tr : List RepairEvent) :
    ∀ s : BurstsFECSchedulerWithFECOnly,
      (s.apply_repair_events tr).n_repair_in_flight =
        runInFlight s.n_repair_in_flight tr := by
  induction tr with
  | nil => intro s; rfl
  | cons e tr ih =>
      intro s
      cases e with
      | sent => exact (ih _).trans rfl
      | acked => exact (ih _).trans rfl
      | lost => exact (ih _).trans rfl

lemma cooldown_apply_repair_events_in_flight (tr : List RepairEvent) :
    ∀ s : CooldownFECSchedulerWithFECOnly,
      (s.apply_repair_events tr).n_repair_in_flight =
        runInFlight s.n_repair_in_flight tr := by
  induction tr with
  | nil => intro s; rfl
  | cons e tr ih =>
      intro s
      cases e with
      | sent => exact (ih _).trans rfl
      | acked => exact (ih _).trans rfl
      | lost => exact (ih _).trans rfl

/-! ## Claim theorems -/

/-- Claim C9: for every scheduler variant and every legal notification
trace (each `acked`/`lost` matched by a distinct preceding `sent`), the
`n_repair_in_flight` counter never underflows, its final value is the
initial value plus the emitted-minus-released balance, and a
`sent`/`acked` (or `sent`/`lost`) pair leaves it net unchanged. -/
theorem n_repair_in_flight_no_underflow (tr : List RepairEvent)
    (hlegal : legalEventTrace tr) :
    (∀ s : BurstsFECScheduler,
        underflowFree s.n_repair_in_flight tr = true ∧
        (s.apply_repair_events tr).n_repair_in_flight + countDoneEvents tr =
          s.n_repair_in_flight + countSentEvents tr) ∧
    (∀ s : BackgroundFECScheduler,
        underflowFree s.n_repair_in_flight tr = true ∧
        (s.apply_repair_events tr).n_repair_in_flight + countDoneEvents tr =
          s.n_repair_in_flight + countSentEvents tr) ∧
    (∀ s : BurstsFECSchedulerWithFECOnly,
        underflowFree s.n_repair_in_flight tr = true ∧
        (s.apply_repair_events tr).n_repair_in_flight + countDoneEvents tr =
          s.n_repair_in_flight + countSentEvents tr) ∧
    (∀ s : CooldownFECSchedulerWithFECOnly,
        underflowFree s.n_repair_in_flight tr = true ∧
        (s.apply_repair_events tr).n_repair_in_flight + countDoneEvents tr =
          s.n_repair_in_flight + countSentEvents tr) ∧
    (∀ s : BurstsFECScheduler,
        (s.apply_repair_events [RepairEvent.sent, RepairEvent.acked]).n_repair_in_flight =
          s.n_repair_in_flight ∧
        (s.apply_repair_events [RepairEvent.sent, RepairEvent.lost]).n_repair_in_flight =
          s.n_repair_in_flight) ∧
    (∀ s : BackgroundFECScheduler,
        (s.apply_repair_events [RepairEvent.sent, RepairEvent.acked]).n_repair_in_flight =
          s.n_repair_in_flight) ∧
    (∀ s : BurstsFECSchedulerWithFECOnly,
        (s.apply_repair_events [RepairEvent.sent, RepairEvent.acked]).n_repair_in_flight =
          s.n_repair_in_flight) ∧
    (∀ s : CooldownFECSchedulerWithFECOnly,
        (s.apply_repair_events [RepairEvent.sent, RepairEvent.acked]).n_repair_in_flight =
          s.n_repair_in_flight) := by
  have hmain : ∀ n : Nat, underflowFree n tr = true ∧
      runInFlight n tr + countDoneEvents tr = n + countSentEvents tr := by
    intro n
    exact trace_counter_run tr n 0 (by intro k; simpa using hlegal k) (Nat.zero_le n)
  refine ⟨?_, ?_, ?_, ?_, ?_, ?_, ?_, ?_⟩
  · intro s
    exact ⟨(hmain _).1, by rw [bursts_apply_repair_events_in_flight]; exact (hmain _).2⟩
  · intro s
    exact ⟨(hmain _).1, by rw [background_apply_repair_events_in_flight]; exact (hmain _).2⟩
  · intro s
    exact ⟨(hmain _).1, by rw [fec_only_apply_repair_events_in_flight]; exact (hmain _).2⟩
  · intro s
    exact ⟨(hmain _).1, by rw [cooldown_apply_repair_events_in_flight]; exact (hmain _).2⟩
  · intro s
    constructor <;>
      · rw [bursts_apply_repair_events_in_flight]
        simp [runInFlight]
  · intro s
    rw [background_apply_repair_events_in_flight]
    simp [runInFlight]
  · intro s
    rw [fec_only_apply_repair_events_in_flight]
    simp [runInFlight]
  · intro s
    rw [cooldown_apply_repair_events_in_flight]
    simp [runInFlight]

/-- Witness for claim C9: the theorem applied to the concrete legal
trace `[sent, acked, sent, lost]` and the fresh bursts scheduler. -/
theorem n_repair_in_flight_no_underflow_witness :
    underflowFree BurstsFECScheduler.new.n_repair_in_flight
        [RepairEvent.sent, RepairEvent.acked, RepairEvent.sent, RepairEvent.lost] = true ∧
    (BurstsFECScheduler.new.apply_repair_events
        [RepairEvent.sent, RepairEvent.acked, RepairEvent.sent, RepairEvent.lost]).n_repair_in_flight + 2 =
      BurstsFECScheduler.new.n_repair_in_flight + 2 := by
  have h := n_repair_in_flight_no_underflow
    [RepairEvent.sent, RepairEvent.acked, RepairEvent.sent, RepairEvent.lost]
    (by decide)
  have h1 := h.1 BurstsFECScheduler.new
  exact ⟨h1.1, h1.2⟩

/-- Claim C10: the algorithm-name parser maps exactly the five known
names to the variants with discriminants 0..4, and every other string
yields the `FECScheduler` error. -/
theorem fec_scheduler_algorithm_from_str_spec :
    (FECSchedulerAlgorithm.from_str "noredundancy" =
        Except.ok FECSchedulerAlgorithm.NoRedundancy ∧
      FECSchedulerAlgorithm.NoRedundancy.discriminant = 0) ∧
    (FECSchedulerAlgorithm.from_str "background" =
        Except.ok FECSchedulerAlgorithm.BackgroundOnly ∧
      FECSchedulerAlgorithm.BackgroundOnly.discriminant = 1) ∧
    (FECSchedulerAlgorithm.from_str "bursts" =
        Except.ok FECSchedulerAlgorithm.BurstsOnly ∧
      FECSchedulerAlgorithm.BurstsOnly.discriminant = 2) ∧
    (FECSchedulerAlgorithm.from_str "bursts_feconly" =
        Except.ok FECSchedulerAlgorithm.BurstsOnlyOnFECOnlyPath ∧
      FECSchedulerAlgorithm.BurstsOnlyOnFECOnlyPath.discriminant = 3) ∧
    (FECSchedulerAlgorithm.from_str "cooldown_feconly" =
        Except.ok FECSchedulerAlgorithm.CooldownOnFECOnlyPath ∧
      FECSchedulerAlgorithm.CooldownOnFECOnlyPath.discriminant = 4) ∧
    ∀ name : String,
      name ≠ "noredundancy" → name ≠ "background" → name ≠ "bursts" →
      name ≠ "bursts_feconly" → name ≠ "cooldown_feconly" →
      FECSchedulerAlgorithm.from_str name = Except.error QuicheError.FECScheduler := by
  refine ⟨⟨rfl, rfl⟩, ⟨rfl, rfl⟩, ⟨rfl, rfl⟩, ⟨rfl, rfl⟩, ⟨rfl, rfl⟩, ?_⟩
  intro name h1 h2 h3 h4 h5
  simp [FECSchedulerAlgorithm.from_str, h1, h2, h3, h4, h5]

/-- Witness for claim C10: the unknown name `reedsolomon` is rejected. -/
theorem fec_scheduler_algorithm_from_str_spec_witness :
    FECSchedulerAlgorithm.from_str "reedsolomon" =
      Except.error QuicheError.FECScheduler :=
  fec_scheduler_algorithm_from_str_spec.2.2.2.2.2 "reedsolomon"
    (by decide) (by decide) (by decide) (by decide) (by decide)

/-- Claim C8 counterexample: acknowledged packets do not always pin the
congestion window.  In `recovery/congestion/disabled_cc.rs` the
`on_packet_acked` body is empty, and in `recovery/disabled_cc.rs` an
ack received while app-limited leaves `congestion_window` unchanged. -/
theorem disabled_cc_ack_does_not_pin_cwnd :
    congestion_disabled_cc_on_packet_acked
        { congestion_window := 5 } { size := 100, in_congestion_recovery := false, hystart_css_ended := false } =
      { congestion_window := 5 } ∧
    (disabled_cc_on_packet_acked
        { bytes_in_flight := 1000, congestion_window := 5, ssthresh := 10,
          bytes_acked_sl := 0, bytes_acked_ca := 0, app_limited := true }
        { size := 100, in_congestion_recovery := false, hystart_css_ended := false }).congestion_window = 5 ∧
    (5 : Nat) ≠ USIZE_MAX - 1 := by
  refine ⟨rfl, rfl, ?_⟩
  decide

/-- Claim C8 amended: both disabled congestion controllers set
`congestion_window := usize::MAX - 1` on every congestion event (and the
older one also on `collapse_cwnd`); on acknowledged packets the newer
controller never touches the window, while the older one touches it only
outside congestion recovery when not app-limited: it pins it in the
slow-start branch (`congestion_window < ssthresh`), and in the
congestion-avoidance branch it pins it exactly when the updated
`bytes_acked_ca` counter reaches the window, leaving it unchanged
otherwise. -/
theorem disabled_cc_pins_cwnd_on_congestion_events :
    (∀ r : Recovery,
        (disabled_cc_congestion_event r).congestion_window = USIZE_MAX - 1) ∧
    (∀ r : Recovery,
        (disabled_cc_collapse_cwnd r).congestion_window = USIZE_MAX - 1) ∧
    (∀ r : Congestion,
        (congestion_disabled_cc_congestion_event r).congestion_window = USIZE_MAX - 1) ∧
    (∀ (r : Congestion) (pkt : AckedPacket),
        congestion_disabled_cc_on_packet_acked r pkt = r) ∧
    (∀ (r : Recovery) (pkt : AckedPacket),
        pkt.in_congestion_recovery = true ∨ r.app_limited = true →
        (disabled_cc_on_packet_acked r pkt).congestion_window = r.congestion_window) ∧
    (∀ (r : Recovery) (pkt : AckedPacket),
        pkt.in_congestion_recovery = false → r.app_limited = false →
        r.congestion_window < r.ssthresh →
        (disabled_cc_on_packet_acked r pkt).congestion_window = USIZE_MAX - 1) ∧
    (∀ (r : Recovery) (pkt : AckedPacket),
        pkt.in_congestion_recovery = false → r.app_limited = false →
        ¬ r.congestion_window < r.ssthresh →
        r.bytes_acked_ca + pkt.size ≥ r.congestion_window →
        (disabled_cc_on_packet_acked r pkt).congestion_window = USIZE_MAX - 1) ∧
    (∀ (r : Recovery) (pkt : AckedPacket),
        pkt.in_congestion_recovery = false → r.app_limited = false →
        ¬ r.congestion_window < r.ssthresh →
        r.bytes_acked_ca + pkt.size < r.congestion_window →
        (disabled_cc_on_packet_acked r pkt).congestion_window = r.congestion_window) := by
  refine ⟨fun r => rfl, fun r => rfl, fun r => rfl, fun r pkt => rfl, ?_, ?_, ?_, ?_⟩
  · intro r pkt h
    rcases h with h | h <;>
      simp [disabled_cc_on_packet_acked, h]
  · intro r pkt h1 h2 h3
    by_cases hcss : pkt.hystart_css_ended <;>
      simp [disabled_cc_on_packet_acked, h1, h2, h3, hcss]
  · intro r pkt h1 h2 h3 h4
    simp [disabled_cc_on_packet_acked, h1, h2, h3, h4]
  · intro r pkt h1 h2 h3 h4
    simp [disabled_cc_on_packet_acked, h1, h2, h3, Nat.not_le.mpr h4]

/-- Witness for claim C8 amended: concrete instantiations of each
hypothesis-carrying conjunct (app-limited no-change, slow-start pin,
congestion-avoidance pin when the byte counter reaches the window, and
congestion-avoidance no-change below it). -/
theorem disabled_cc_pins_cwnd_on_congestion_events_witness :
    (disabled_cc_on_packet_acked
        { bytes_in_flight := 1000, congestion_window := 7, ssthresh := 10,
          bytes_acked_sl := 0, bytes_acked_ca := 0, app_limited := true }
        { size := 100, in_congestion_recovery := false, hystart_css_ended := false }).congestion_window = 7 ∧
    (disabled_cc_on_packet_acked
        { bytes_in_flight := 1000, congestion_window := 7, ssthresh := 10,
          bytes_acked_sl := 0, bytes_acked_ca := 0, app_limited := false }
        { size := 100, in_congestion_recovery := false, hystart_css_ended := false }).congestion_window = USIZE_MAX - 1 ∧
    (disabled_cc_on_packet_acked
        { bytes_in_flight := 1000, congestion_window := 7, ssthresh := 5,
          bytes_acked_sl := 0, bytes_acked_ca := 0, app_limited := false }
        { size := 100, in_congestion_recovery := false, hystart_css_ended := false }).congestion_window = USIZE_MAX - 1 ∧
    (disabled_cc_on_packet_acked
        { bytes_in_flight := 1000, congestion_window := 1000, ssthresh := 5,
          bytes_acked_sl := 0, bytes_acked_ca := 0, app_limited := false }
        { size := 100, in_congestion_recovery := false, hystart_css_ended := false }).congestion_window = 1000 := by
  refine ⟨?_, ?_, ?_, ?_⟩
  · exact disabled_cc_pins_cwnd_on_congestion_events.2.2.2.2.1
      { bytes_in_flight := 1000, congestion_window := 7, ssthresh := 10,
        bytes_acked_sl := 0, bytes_acked_ca := 0, app_limited := true }
      { size := 100, in_congestion_recovery := false, hystart_css_ended := false }
      (Or.inr rfl)
  · exact disabled_cc_pins_cwnd_on_congestion_events.2.2.2.2.2.1
      { bytes_in_flight := 1000, congestion_window := 7, ssthresh := 10,
        bytes_acked_sl := 0, bytes_acked_ca := 0, app_limited := false }
      { size := 100, in_congestion_recovery := false, hystart_css_ended := false }
      rfl rfl (by decide)
  · exact disabled_cc_pins_cwnd_on_congestion_events.2.2.2.2.2.2.1
      { bytes_in_flight := 1000, congestion_window := 7, ssthresh := 5,
        bytes_acked_sl := 0, bytes_acked_ca := 0, app_limited := false }
      { size := 100, in_congestion_recovery := false, hystart_css_ended := false }
      rfl rfl (by decide) (by decide)
  · exact disabled_cc_pins_cwnd_on_congestion_events.2.2.2.2.2.2.2
      { bytes_in_flight := 1000, congestion_window := 1000, ssthresh := 5,
        bytes_acked_sl := 0, bytes_acked_ca := 0, app_limited := false }
      { size := 100, in_congestion_recovery := false, hystart_css_ended := false }
      rfl rfl (by decide) (by decide)

lemma bursts_post_round (s : BurstsFECScheduler) (conn : ConnView)
    (path : PathView) (symbol_size now : Nat) (p : BurstsParams) :
    (s.should_send_repair conn path symbol_size now p).2.state_sending_repair =
      match bursts_open_or_expire (bursts_clear_finished symbol_size s.state_sending_repair)
          conn.nothing_to_send
          (decide (conn.tx_data - s.n_sent_stream_bytes_sent_when_nothing_to_send >
            p.threshold_burst_size))
          now p.max_jitter conn.tx_data
          (conn.tx_data - s.n_sent_stream_bytes_sent_when_nothing_to_send) path.rtt with
      | some st =>
          some { st with repair_bytes_to_send := max st.repair_bytes_to_send (bursts_candidate_repair_bytes (path.cwnd - path.cwnd_available) s.n_source_symbols_sent_since_last_repair symbol_size p.fec_frac_denominator_to_protect path.loss_based_packets) }
      | none => none := by
  simp only [BurstsFECScheduler.should_send_repair]
  cases hopen : bursts_open_or_expire (bursts_clear_finished symbol_size s.state_sending_repair)
      conn.nothing_to_send
      (decide (conn.tx_data - s.n_sent_stream_bytes_sent_when_nothing_to_send >
        p.threshold_burst_size))
      now p.max_jitter conn.tx_data
      (conn.tx_data - s.n_sent_stream_bytes_sent_when_nothing_to_send) path.rtt with
  | none =>
      simp only [hopen]
      split <;> split <;> rfl
  | some st =>
      simp only [hopen]
      split <;> split <;> first
        | rfl
        | (simp only [apply_ite (fun x : BurstsFECScheduler => x.state_sending_repair)]; simp)

lemma bursts_decision (s : BurstsFECScheduler) (conn : ConnView)
    (path : PathView) (symbol_size now : Nat) (p : BurstsParams) :
    (s.should_send_repair conn path symbol_size now p).1 =
      match (s.should_send_repair conn path symbol_size now p).2.state_sending_repair with
      | some st =>
          decide (now ≥ st.«when») &&
          decide (st.repair_symbols_sent * symbol_size < st.repair_bytes_to_send)
      | none => false := by
  rw [bursts_post_round]
  simp only [BurstsFECScheduler.should_send_repair]
  cases hopen : bursts_open_or_expire (bursts_clear_finished symbol_size s.state_sending_repair)
      conn.nothing_to_send
      (decide (conn.tx_data - s.n_sent_stream_bytes_sent_when_nothing_to_send >
        p.threshold_burst_size))
      now p.max_jitter conn.tx_data
      (conn.tx_data - s.n_sent_stream_bytes_sent_when_nothing_to_send) path.rtt with
  | none =>
      simp only [hopen]
      split <;>
        simp_all [apply_ite (fun x : BurstsFECScheduler => x.state_sending_repair)]
  | some st =>
      simp only [hopen]
      split <;>
        simp_all [apply_ite (fun x : BurstsFECScheduler => x.state_sending_repair)] <;>
        (subst_vars; simp [lt_sup_iff])

lemma cooldown_decision_eq (s : CooldownFECSchedulerWithFECOnly)
    (conn : ConnView) (path : PathView) (symbol_size now : Nat)
    (p : CooldownParams) :
    (s.should_send_repair conn path symbol_size now p).1 =
      (path.fec_only &&
        (cooldown_should_probe conn path p.bandwidth_probing_bps ||
          (decide (path.cwnd_available > p.minimum_room_in_cwin) &&
            decide (s.n_repair_in_flight * symbol_size <
              cooldown_max_repair_data conn.total_bif
                p.fec_frac_denominator_to_protect)))) := by
  cases hf : path.fec_only with
  | false =>
      simp [CooldownFECSchedulerWithFECOnly.should_send_repair, hf]
  | true =>
      simp only [CooldownFECSchedulerWithFECOnly.should_send_repair, hf,
        Bool.not_true, Bool.true_and]
      repeat' split
      all_goals simp_all

/-- Claim C1 counterexample: with `max_jitter = 500`, an earliest
unprotected source-symbol time of 0 recorded and `now = 0` (so that the
claimed jitter gate `now > earliest + max_jitter` is false and the claim
predicts that no round opens), `should_send_repair` nevertheless opens a
round, and the opened round has `start_time = now = 0`, not
`now + max_jitter = 500` as the claim states. -/
theorem bursts_round_open_ignores_jitter_gate :
    (({ BurstsFECScheduler.new with
          earliest_unprotected_source_symbol_sent_time := some 0 } :
        BurstsFECScheduler).should_send_repair conn_idle path_small 1200 0
        { max_jitter := 500 }).2.state_sending_repair =
      some { start_time := 0, «when» := 500, burst_start_offset := 16000,
             burst_size := 16000, repair_bytes_to_send := 0,
             repair_symbols_sent := 0 } ∧
    ¬ ((0 : Nat) > 0 + 500) ∧
    (0 : Nat) ≠ 0 + 500 := by
  refine ⟨rfl, by decide, by decide⟩

/-- Claim C1 amended: after the entry clearing step, a round opens iff
there is no current round, `nothing_to_send` holds and
`current_burst_size > threshold_burst_size`; no jitter gate on
`earliest_unprotected_source_symbol_sent_time` is applied.  The opened
round has `start_time = now`, `when = now + max_jitter`,
`burst_start_offset = tx_data`, `burst_size = current_burst_size`,
`repair_symbols_sent = 0`, and `repair_bytes_to_send` starts at 0 and is
raised by the sizing step of the same call to the candidate value. -/
theorem bursts_round_open_spec (s : BurstsFECScheduler) (conn : ConnView)
    (path : PathView) (symbol_size now : Nat) (p : BurstsParams)
    (hclear : bursts_clear_finished symbol_size s.state_sending_repair = none) :
    (conn.nothing_to_send = true →
      conn.tx_data - s.n_sent_stream_bytes_sent_when_nothing_to_send >
        p.threshold_burst_size →
      (s.should_send_repair conn path symbol_size now p).2.state_sending_repair =
        some { start_time := now, «when» := now + p.max_jitter,
               burst_start_offset := conn.tx_data,
               burst_size := conn.tx_data -
                 s.n_sent_stream_bytes_sent_when_nothing_to_send,
               repair_bytes_to_send := bursts_candidate_repair_bytes (path.cwnd - path.cwnd_available) s.n_source_symbols_sent_since_last_repair symbol_size p.fec_frac_denominator_to_protect path.loss_based_packets,
               repair_symbols_sent := 0 }) ∧
    (¬ (conn.nothing_to_send = true ∧
        conn.tx_data - s.n_sent_stream_bytes_sent_when_nothing_to_send >
          p.threshold_burst_size) →
      (s.should_send_repair conn path symbol_size now p).2.state_sending_repair =
        none) := by
  constructor
  · intro h1 h2
    rw [bursts_post_round]
    rw [hclear]
    simp [bursts_open_or_expire, h1, h2]
  · intro h
    rw [bursts_post_round]
    rw [hclear]
    rcases Decidable.em (conn.nothing_to_send = true) with h1 | h1
    · have h2 : ¬ (conn.tx_data - s.n_sent_stream_bytes_sent_when_nothing_to_send >
          p.threshold_burst_size) := fun hc => h ⟨h1, hc⟩
      simp [bursts_open_or_expire, h1, h2]
    · simp [bursts_open_or_expire, Bool.eq_false_iff.mpr h1]

/-- Witness for claim C1 amended: on the concrete idle connection with
a 16000-byte burst and default parameters, the fresh scheduler opens a
round with `start_time = when = 0` and candidate ceiling 0. -/
theorem bursts_round_open_spec_witness :
    (BurstsFECScheduler.new.should_send_repair conn_idle path_small 1200 0
        {}).2.state_sending_repair =
      some { start_time := 0, «when» := 0, burst_start_offset := 16000,
             burst_size := 16000, repair_bytes_to_send := 0,
             repair_symbols_sent := 0 } := by
  have h := (bursts_round_open_spec BurstsFECScheduler.new conn_idle path_small
    1200 0 {} rfl).1 rfl (by decide)
  simpa using h

/-- Claim C2 counterexample: after a round with
`repair_bytes_to_send = 600` authorizes an emission
(`symbol_size = 1200`) and the emission is reported, the state entering
the next decision still holds the round while
`repair_symbols_sent * symbol_size = 1200 > 600 = repair_bytes_to_send`,
so the claimed on-entry inequality fails (and the state was not cleared
at the moment the ceiling was crossed). -/
theorem bursts_ceiling_exceeded_on_entry :
    ((BurstsFECScheduler.new.sent_source_symbol conn_idle 0
        {}).should_send_repair conn_idle path_small 1200 0 {}).1 = true ∧
    (((BurstsFECScheduler.new.sent_source_symbol conn_idle 0
        {}).should_send_repair conn_idle path_small 1200 0
        {}).2.sent_repair_symbol.state_sending_repair =
      some { start_time := 0, «when» := 0, burst_start_offset := 16000,
             burst_size := 16000, repair_bytes_to_send := 600,
             repair_symbols_sent := 1 }) ∧
    ¬ ((1 : Nat) * 1200 ≤ 600) := by
  refine ⟨rfl, rfl, by decide⟩

/-- Claim C2 amended: the on-entry inequality can fail after a round's
final emission; instead, `should_send_repair` clears any round whose
`repair_symbols_sent * symbol_size` has reached `repair_bytes_to_send`
before deciding, every emission it authorizes happens under the strict
inequality (which therefore holds for the round left in the post-state
of a call returning true), and a cleared round can only be replaced by a
fresh one with `repair_symbols_sent = 0`. -/
theorem bursts_round_gate_strict (s : BurstsFECScheduler) (conn : ConnView)
    (path : PathView) (symbol_size now : Nat) (p : BurstsParams) :
    ((s.should_send_repair conn path symbol_size now p).1 = true →
      ∃ st, (s.should_send_repair conn path symbol_size now p).2.state_sending_repair =
          some st ∧
        st.repair_symbols_sent * symbol_size < st.repair_bytes_to_send) ∧
    (∀ st₀, s.state_sending_repair = some st₀ →
      st₀.repair_symbols_sent * symbol_size ≥ st₀.repair_bytes_to_send →
      (s.should_send_repair conn path symbol_size now p).2.state_sending_repair =
          none ∨
      ∃ st, (s.should_send_repair conn path symbol_size now p).2.state_sending_repair =
          some st ∧ st.repair_symbols_sent = 0) := by
  constructor
  · intro htrue
    have hd := bursts_decision s conn path symbol_size now p
    rw [htrue] at hd
    cases hpost : (s.should_send_repair conn path symbol_size now p).2.state_sending_repair with
    | none => rw [hpost] at hd; simp at hd
    | some st =>
        simp only [hpost] at hd
        refine ⟨st, rfl, ?_⟩
        by_contra hlt
        simp [hlt] at hd
  · intro st₀ hst₀ hge
    have hclear : bursts_clear_finished symbol_size s.state_sending_repair = none := by
      rw [hst₀]
      simp [bursts_clear_finished, hge]
    rw [bursts_post_round, hclear]
    cases hopen : bursts_open_or_expire none conn.nothing_to_send
        (decide (conn.tx_data - s.n_sent_stream_bytes_sent_when_nothing_to_send >
          p.threshold_burst_size)) now p.max_jitter conn.tx_data
        (conn.tx_data - s.n_sent_stream_bytes_sent_when_nothing_to_send)
        path.rtt with
    | none => left; rfl
    | some st =>
        right
        refine ⟨_, rfl, ?_⟩
        have : st.repair_symbols_sent = 0 := by
          revert hopen
          simp only [bursts_open_or_expire, Option.isNone_none, Bool.true_and]
          split
          · intro h
            cases h
            rfl
          · intro h
            cases h
        simpa using this

/-- Witness for claim C2 amended: a call that returns true on the
concrete 16000-byte burst leaves a round satisfying the strict
inequality, and a finished entry round is cleared or replaced by a
fresh one. -/
theorem bursts_round_gate_strict_witness :
    (∃ st, ((BurstsFECScheduler.new.sent_source_symbol conn_idle 0
          {}).should_send_repair conn_idle path_small 1200 0
          {}).2.state_sending_repair = some st ∧
        st.repair_symbols_sent * 1200 < st.repair_bytes_to_send) ∧
    ((({ BurstsFECScheduler.new with state_sending_repair := some { start_time := 0, «when» := 0, burst_start_offset := 0, burst_size := 0, repair_bytes_to_send := 600, repair_symbols_sent := 1 } } : BurstsFECScheduler).should_send_repair conn_streaming path_small 1200 0 {}).2.state_sending_repair = none ∨
      ∃ st, (({ BurstsFECScheduler.new with state_sending_repair := some { start_time := 0, «when» := 0, burst_start_offset := 0, burst_size := 0, repair_bytes_to_send := 600, repair_symbols_sent := 1 } } : BurstsFECScheduler).should_send_repair conn_streaming path_small 1200 0 {}).2.state_sending_repair = some st ∧ st.repair_symbols_sent = 0) := by
  constructor
  · exact (bursts_round_gate_strict (BurstsFECScheduler.new.sent_source_symbol
      conn_idle 0 {}) conn_idle path_small 1200 0 {}).1 rfl
  · exact (bursts_round_gate_strict _ conn_streaming path_small 1200 0 {}).2
      _ rfl (by decide)

/-- Claim C3 counterexample: the bursts scheduler can return true while
a stream is flushable.  A round opened during an idle call (16000-byte
burst, ceiling 600 bytes) is still pending at the next call; that call
has `stream_to_emit = true`, yet `should_send_repair` returns true. -/
theorem bursts_emits_with_stream_flushable :
    conn_streaming.stream_to_emit = true ∧
    (((BurstsFECScheduler.new.sent_source_symbol conn_idle 0
        {}).should_send_repair conn_idle path_small 1200 0
        {}).2.should_send_repair conn_streaming path_small 1200 10 {}).1 =
      true := by
  exact ⟨rfl, rfl⟩

/-- Claim C3 amended: with data to send
(`has_flushable_stream || has_writable_datagram`), the background
scheduler always returns false, and the bursts scheduler returns false
whenever it holds no sending round on entry (a round opened by an
earlier idle call may still authorize emission). -/
theorem no_repair_when_data_to_send (conn : ConnView) (path : PathView)
    (symbol_size now : Nat)
    (hdata : conn.dgrams_to_emit = true ∨ conn.stream_to_emit = true) :
    (∀ (s : BackgroundFECScheduler) (delay_env : Option Nat),
      (s.should_send_repair conn path symbol_size now delay_env).1 = false) ∧
    (∀ (s : BurstsFECScheduler) (p : BurstsParams),
      s.state_sending_repair = none →
      (s.should_send_repair conn path symbol_size now p).1 = false) := by
  have hnothing : conn.nothing_to_send = false := by
    rcases hdata with h | h <;> simp [ConnView.nothing_to_send, h]
  constructor
  · intro s delay_env
    have hreq : ∀ s' : BackgroundFECScheduler,
        background_repair_required s' conn path symbol_size = false := by
      intro s'
      rcases hdata with h | h <;>
        simp [background_repair_required, h]
    cases delay_env with
    | none =>
        simp [BackgroundFECScheduler.should_send_repair, hreq]
    | some d =>
        simp [BackgroundFECScheduler.should_send_repair, hreq]
  · intro s p hnone
    have hclear : bursts_clear_finished symbol_size s.state_sending_repair = none := by
      rw [hnone]; rfl
    have hpost : (s.should_send_repair conn path symbol_size now p).2.state_sending_repair = none := by
      rw [bursts_post_round, hclear]
      simp [bursts_open_or_expire, hnothing]
    have hd := bursts_decision s conn path symbol_size now p
    rw [hpost] at hd
    exact hd

/-- Witness for claim C3 amended: on the streaming connection both
schedulers decline from their fresh states. -/
theorem no_repair_when_data_to_send_witness :
    (BackgroundFECScheduler.new.should_send_repair conn_streaming path_small
        1200 0 none).1 = false ∧
    (BurstsFECScheduler.new.should_send_repair conn_streaming path_small
        1200 0 {}).1 = false := by
  have h := no_repair_when_data_to_send conn_streaming path_small 1200 0
    (Or.inr rfl)
  exact ⟨h.1 BackgroundFECScheduler.new none, h.2 BurstsFECScheduler.new {} rfl⟩

lemma fec_only_decision (s : BurstsFECSchedulerWithFECOnly) (conn : ConnView)
    (path : PathView) (symbol_size now : Nat) (p : BurstsFECOnlyParams)
    (hf : path.fec_only = true) :
    (s.should_send_repair conn path symbol_size now p).1 =
      match (s.should_send_repair conn path symbol_size now p).2.state_sending_repair with
      | some st =>
          decide (s.n_repair_in_flight * symbol_size < st.max_sending_repair_bytes)
      | none => false := by
  simp only [BurstsFECSchedulerWithFECOnly.should_send_repair, hf, Bool.not_true,
    Bool.false_eq_true, if_false]
  cases hst : s.state_sending_repair with
  | some st =>
      simp only [hst]
      by_cases hexp : path.rtt < now - st.start_time
      · by_cases hnts : conn.nothing_to_send = true <;> simp [hexp, hnts]
      · by_cases hnts : conn.nothing_to_send = true <;>
          by_cases hgate : s.n_repair_in_flight * symbol_size < st.max_sending_repair_bytes <;>
          simp [hexp, hnts, hgate]
  | none =>
      simp only [hst]
      by_cases hcond : (decide (conn.sent_bytes - s.n_bytes_sent_when_nothing_to_send > p.burst_size) &&
          (s.first_source_symbol_in_burst_sent_time.isNone ||
            decide (now > s.first_source_symbol_in_burst_sent_time.getD 0 + p.fec_cooldown))) = true
      · by_cases hnts : conn.nothing_to_send = true <;>
          (simp [hcond, hnts]; try (split <;> split <;> simp_all [apply_ite BurstsFECSchedulerWithFECOnly.state_sending_repair] <;> (subst_vars; simp)))
      · by_cases hnts : conn.nothing_to_send = true <;> simp [hcond, hnts]

/-- Claim C4 counterexample: the cooldown scheduler has no zero branch
below `symbol_size`.  With `total_bif = 1000 < symbol_size = 1200` the
claim predicts a budget of 0 and hence no authorization, but the code
computes `1000*3/5 = 600` and returns true (no repair in flight, enough
congestion-window room, no probing). -/
theorem cooldown_budget_below_symbol_size_not_zero :
    conn_two_paths.total_bif = 1000 ∧
    (1000 : Nat) < 1200 ∧
    cooldown_max_repair_data 1000 2 = 600 ∧
    (600 : Nat) ≠ 0 ∧
    (CooldownFECSchedulerWithFECOnly.new.should_send_repair conn_two_paths
        path_fec_quiet 1200 0 {}).1 = true := by
  exact ⟨rfl, by decide, rfl, by decide, rfl⟩

/-- Claim C4 amended: each active variant has its own budget shape and
gate.  The background scheduler authorizes an emission only while
`n_repair_in_flight * symbol_size < max_repair_data` with its own
budget (0 below `symbol_size`, `B*3/5` below 15000, otherwise capped by
`min(5*symbol_size, B/4)` or loss information); the bursts scheduler
gates on the round's `repair_symbols_sent * symbol_size <
repair_bytes_to_send`; the bursts-on-FEC-only scheduler gates
`n_repair_in_flight * symbol_size` against the round's budget frozen at
round opening; and the cooldown scheduler returns exactly
`should_probe || (enough_room_in_cwin && n_repair_in_flight *
symbol_size < max_repair_data)` with budget `B*3/5` below 15000 (even
below `symbol_size`) and `B/D` otherwise. -/
theorem variant_budget_gates :
    (∀ (s : BackgroundFECScheduler) (conn : ConnView) (path : PathView)
        (symbol_size now : Nat) (delay_env : Option Nat),
      (s.should_send_repair conn path symbol_size now delay_env).1 = true →
      s.n_repair_in_flight * symbol_size <
        background_max_repair_data conn path symbol_size) ∧
    (∀ (s : BurstsFECScheduler) (conn : ConnView) (path : PathView)
        (symbol_size now : Nat) (p : BurstsParams),
      (s.should_send_repair conn path symbol_size now p).1 = true →
      ∃ st, (s.should_send_repair conn path symbol_size now p).2.state_sending_repair =
          some st ∧
        st.repair_symbols_sent * symbol_size < st.repair_bytes_to_send) ∧
    (∀ (s : BurstsFECSchedulerWithFECOnly) (conn : ConnView) (path : PathView)
        (symbol_size now : Nat) (p : BurstsFECOnlyParams),
      (s.should_send_repair conn path symbol_size now p).1 = true →
      ∃ st, (s.should_send_repair conn path symbol_size now p).2.state_sending_repair =
          some st ∧
        s.n_repair_in_flight * symbol_size < st.max_sending_repair_bytes) ∧
    (∀ (s : CooldownFECSchedulerWithFECOnly) (conn : ConnView) (path : PathView)
        (symbol_size now : Nat) (p : CooldownParams),
      (s.should_send_repair conn path symbol_size now p).1 =
        (path.fec_only &&
          (cooldown_should_probe conn path p.bandwidth_probing_bps ||
            (decide (path.cwnd_available > p.minimum_room_in_cwin) &&
              decide (s.n_repair_in_flight * symbol_size <
                cooldown_max_repair_data conn.total_bif
                  p.fec_frac_denominator_to_protect))))) := by
  refine ⟨?_, ?_, ?_, ?_⟩
  · intro s conn path symbol_size now delay_env htrue
    cases delay_env with
    | none =>
        by_contra hno
        have hreq : background_repair_required s conn path symbol_size = false := by
          simp [background_repair_required, hno]
        simp [BackgroundFECScheduler.should_send_repair, hreq] at htrue
    | some d =>
        by_contra hno
        have hreq : background_repair_required { s with delaying_duration := d }
            conn path symbol_size = false := by
          simp [background_repair_required, hno]
        simp [BackgroundFECScheduler.should_send_repair, hreq] at htrue
  · intro s conn path symbol_size now p htrue
    have hd := bursts_decision s conn path symbol_size now p
    rw [htrue] at hd
    cases hpost : (s.should_send_repair conn path symbol_size now p).2.state_sending_repair with
    | none => rw [hpost] at hd; simp at hd
    | some st =>
        simp only [hpost] at hd
        refine ⟨st, rfl, ?_⟩
        by_contra hlt
        simp [hlt] at hd
  · intro s conn path symbol_size now p htrue
    cases hf : path.fec_only with
    | false =>
        have : (s.should_send_repair conn path symbol_size now p).1 = false := by
          simp [BurstsFECSchedulerWithFECOnly.should_send_repair, hf]
        rw [this] at htrue
        cases htrue
    | true =>
        have hd := fec_only_decision s conn path symbol_size now p hf
        rw [htrue] at hd
        cases hpost : (s.should_send_repair conn path symbol_size now p).2.state_sending_repair with
        | none => rw [hpost] at hd; simp at hd
        | some st =>
            simp only [hpost] at hd
            refine ⟨st, rfl, ?_⟩
            by_contra hlt
            simp [hlt] at hd
  · intro s conn path symbol_size now p
    exact cooldown_decision_eq s conn path symbol_size now p

/-- Witness for claim C4 amended: the background gate holds on the
seed scenario emission at `t = 2` ms, and the bursts gate on the
16000-byte burst emission. -/
theorem variant_budget_gates_witness :
    ({ BackgroundFECScheduler.new with rs_triggering_time := some 0 } :
        BackgroundFECScheduler).n_repair_in_flight * 1200 <
      background_max_repair_data conn_bg path_bg 1200 ∧
    (∃ st, ((BurstsFECScheduler.new.sent_source_symbol conn_idle 0
          {}).should_send_repair conn_idle path_small 1200 0
          {}).2.state_sending_repair = some st ∧
        st.repair_symbols_sent * 1200 < st.repair_bytes_to_send) := by
  constructor
  · exact variant_budget_gates.1
      { BackgroundFECScheduler.new with rs_triggering_time := some 0 }
      conn_bg path_bg 1200 2000 none rfl
  · exact variant_budget_gates.2.1 (BurstsFECScheduler.new.sent_source_symbol
      conn_idle 0 {}) conn_idle path_small 1200 0 {} rfl

/-- Claim C5 counterexample: with the seed inputs (single data path,
`cwnd = 120000`, `cwnd_available = 20000`, hence bif = 100000,
`symbol_size = 1200`, no loss information) the protection budget is
`min(5*1200, 100000/4) = 6000`, not `100000/2 = 50000`; and when the
encoder protects no symbols the budget is 0 even though the calling
path still has bif = 100000, so the base quantity is not the calling
path's bytes in flight. -/
theorem background_base_quantity_not_path_bif :
    background_max_repair_data conn_bg path_bg 1200 = 6000 ∧
    (6000 : Nat) ≠ 50000 ∧
    background_max_repair_data { conn_bg with n_protected_symbols := 0 }
      path_bg 1200 = 0 := by
  exact ⟨rfl, by decide, rfl⟩

/-- Claim C5 amended: the background base quantity is
`min(n_protected_symbols * symbol_size, total_bif)` where `total_bif`
sums `cwnd - cwnd_available` over non-FEC-only paths; in the seed
scenario (bif = 100000, 100 protected symbols of 1200 bytes, no repair
in flight, no loss info) the budget is `min(5*1200, 100000/4) = 6000`
and the calls at `t = 0`, `t = 1` ms and `t = 2` ms return false,
false, true. -/
theorem background_seed_scenario :
    conn_bg.total_bif = 100000 ∧
    min (conn_bg.n_protected_symbols * 1200) conn_bg.total_bif = 100000 ∧
    background_max_repair_data conn_bg path_bg 1200 = 6000 ∧
    (BackgroundFECScheduler.new.should_send_repair conn_bg path_bg 1200 0
        none).1 = false ∧
    ((BackgroundFECScheduler.new.should_send_repair conn_bg path_bg 1200 0
        none).2.should_send_repair conn_bg path_bg 1200 1000 none).1 = false ∧
    (((BackgroundFECScheduler.new.should_send_repair conn_bg path_bg 1200 0
        none).2.should_send_repair conn_bg path_bg 1200 1000
        none).2.should_send_repair conn_bg path_bg 1200 2000 none).1 =
      true := by
  exact ⟨rfl, rfl, rfl, rfl, rfl, rfl⟩

/-- Claim C6: background delaying logic.  With a positive effective
delaying duration: when the gating condition fails the triggering
timestamp is cleared and the call returns false; when it holds with no
latched triggering time, the call records `rs_triggering_time = now`
and returns false; and the call returns true exactly when the gating
condition holds and `now ≥ rs_triggering_time + delaying_duration`
(with the just-latched value `now` on a first pass). -/
theorem background_delaying_spec (s : BackgroundFECScheduler)
    (conn : ConnView) (path : PathView) (symbol_size now : Nat)
    (delay_env : Option Nat)
    (hpos : 0 < delay_env.getD s.delaying_duration) :
    (background_repair_required s conn path symbol_size = false →
      (s.should_send_repair conn path symbol_size now delay_env).1 = false ∧
      (s.should_send_repair conn path symbol_size now delay_env).2.rs_triggering_time =
        none) ∧
    (background_repair_required s conn path symbol_size = true →
      s.rs_triggering_time = none →
      (s.should_send_repair conn path symbol_size now delay_env).1 = false ∧
      (s.should_send_repair conn path symbol_size now delay_env).2.rs_triggering_time =
        some now) ∧
    ((s.should_send_repair conn path symbol_size now delay_env).1 =
      (background_repair_required s conn path symbol_size &&
        decide (now ≥ s.rs_triggering_time.getD now +
          delay_env.getD s.delaying_duration))) := by
  have hreq_any : ∀ (d : Nat) (t : Option Nat) (b : Bool),
      background_repair_required
        { delaying_duration := d, n_repair_in_flight := s.n_repair_in_flight,
          rs_triggering_time := t, rs_sent_for_this_round := b } conn path
        symbol_size = background_repair_required s conn path symbol_size := by
    intro d t b
    rfl
  cases delay_env with
  | none =>
      simp only [Option.getD_none] at hpos ⊢
      refine ⟨?_, ?_, ?_⟩
      · intro hreq
        simp [BackgroundFECScheduler.should_send_repair, hreq,
          BackgroundFECScheduler.reset_rs_delaying]
      · intro hreq htrig
        simp [BackgroundFECScheduler.should_send_repair, hreq, htrig]
        try omega
      · cases htrig : s.rs_triggering_time with
        | none =>
            cases hreq : background_repair_required s conn path symbol_size with
            | false =>
                simp [BackgroundFECScheduler.should_send_repair, hreq]
            | true =>
                simp [BackgroundFECScheduler.should_send_repair, hreq, htrig]
                try omega
        | some t =>
            cases hreq : background_repair_required s conn path symbol_size with
            | false =>
                simp [BackgroundFECScheduler.should_send_repair, hreq]
            | true =>
                simp [BackgroundFECScheduler.should_send_repair, hreq, htrig]
  | some d =>
      simp only [Option.getD_some] at hpos ⊢
      refine ⟨?_, ?_, ?_⟩
      · intro hreq
        simp [BackgroundFECScheduler.should_send_repair, hreq_any, hreq,
          BackgroundFECScheduler.reset_rs_delaying]
      · intro hreq htrig
        simp [BackgroundFECScheduler.should_send_repair, hreq_any, hreq, htrig]
        try omega
      · cases htrig : s.rs_triggering_time with
        | none =>
            cases hreq : background_repair_required s conn path symbol_size with
            | false =>
                simp [BackgroundFECScheduler.should_send_repair, hreq_any, hreq]
            | true =>
                simp [BackgroundFECScheduler.should_send_repair, hreq_any, hreq,
                  htrig]
                try omega
        | some t =>
            cases hreq : background_repair_required s conn path symbol_size with
            | false =>
                simp [BackgroundFECScheduler.should_send_repair, hreq_any, hreq]
            | true =>
                simp [BackgroundFECScheduler.should_send_repair, hreq_any, hreq,
                  htrig]

/-- Witness for claim C6: on the seed-scenario inputs the first call
latches `rs_triggering_time = 0` and returns false. -/
theorem background_delaying_spec_witness :
    (BackgroundFECScheduler.new.should_send_repair conn_bg path_bg 1200 0
        none).1 = false ∧
    (BackgroundFECScheduler.new.should_send_repair conn_bg path_bg 1200 0
        none).2.rs_triggering_time = some 0 := by
  exact (background_delaying_spec BackgroundFECScheduler.new conn_bg path_bg
    1200 0 none (by decide)).2.1 rfl rfl

/-- Claim C7 counterexample: with probing enabled
(`bandwidth_probing_bps = 1000000`) on an app-limited FEC-only path,
two consecutive calls both return true while
`fec_encoder.first_metadata()` stays `some 7`: the cooldown scheduler
issues more than one sending decision within the same epoch. -/
theorem cooldown_two_decisions_same_epoch :
    (CooldownFECSchedulerWithFECOnly.new.should_send_repair conn_probe
        path_probe 1200 0 { bandwidth_probing_bps := 1000000 }).1 = true ∧
    (CooldownFECSchedulerWithFECOnly.new.should_send_repair conn_probe
        path_probe 1200 0
        { bandwidth_probing_bps := 1000000 }).2.state_sending_repair =
      some { first_protected_metadata_for_epoch := some 7 } ∧
    ((CooldownFECSchedulerWithFECOnly.new.should_send_repair conn_probe
        path_probe 1200 0
        { bandwidth_probing_bps := 1000000 }).2.should_send_repair conn_probe
        path_probe 1200 5 { bandwidth_probing_bps := 1000000 }).1 = true := by
  exact ⟨rfl, rfl, rfl⟩

/-- Claim C7 amended: the stored round state is invalidated whenever
`fec_encoder.first_metadata()` differs from the stored epoch (it is
cleared and can only be re-opened with the current metadata), but the
sending decision itself does not consult the round state: it depends on
the scheduler state only through `n_repair_in_flight`, so several true
decisions can be issued within one epoch. -/
theorem cooldown_epoch_state_spec :
    (∀ (s₁ s₂ : CooldownFECSchedulerWithFECOnly) (conn : ConnView)
        (path : PathView) (symbol_size now : Nat) (p : CooldownParams),
      s₁.n_repair_in_flight = s₂.n_repair_in_flight →
      (s₁.should_send_repair conn path symbol_size now p).1 =
        (s₂.should_send_repair conn path symbol_size now p).1) ∧
    (∀ (s : CooldownFECSchedulerWithFECOnly) (conn : ConnView)
        (path : PathView) (symbol_size now : Nat) (p : CooldownParams)
        (st : CooldownSendingState),
      path.fec_only = true →
      s.state_sending_repair = some st →
      conn.first_metadata ≠ st.first_protected_metadata_for_epoch →
      (s.should_send_repair conn path symbol_size now p).2.state_sending_repair =
          none ∨
      (s.should_send_repair conn path symbol_size now p).2.state_sending_repair =
        some { first_protected_metadata_for_epoch := conn.first_metadata }) := by
  constructor
  · intro s₁ s₂ conn path symbol_size now p hn
    rw [cooldown_decision_eq, cooldown_decision_eq, hn]
  · intro s conn path symbol_size now p st hf hst hne
    simp only [CooldownFECSchedulerWithFECOnly.should_send_repair, hf,
      Bool.not_true, Bool.false_eq_true, if_false, hst]
    rw [if_pos hne]
    by_cases hnts : conn.nothing_to_send = true <;> simp_all <;> split <;> simp

/-- Witness for claim C7 amended: a stale round (epoch `some 3`) does
not change the decision relative to the fresh state, and it is
invalidated (cleared or re-opened with the current epoch `some 7`). -/
theorem cooldown_epoch_state_spec_witness :
    ((({ CooldownFECSchedulerWithFECOnly.new with state_sending_repair := some { first_protected_metadata_for_epoch := some 3 } } : CooldownFECSchedulerWithFECOnly).should_send_repair conn_probe path_probe 1200 0 { bandwidth_probing_bps := 1000000 }).1 =
      (CooldownFECSchedulerWithFECOnly.new.should_send_repair conn_probe
        path_probe 1200 0 { bandwidth_probing_bps := 1000000 }).1) ∧
    ((({ CooldownFECSchedulerWithFECOnly.new with state_sending_repair := some { first_protected_metadata_for_epoch := some 3 } } : CooldownFECSchedulerWithFECOnly).should_send_repair conn_probe path_probe 1200 0 { bandwidth_probing_bps := 1000000 }).2.state_sending_repair = none ∨
      (({ CooldownFECSchedulerWithFECOnly.new with state_sending_repair := some { first_protected_metadata_for_epoch := some 3 } } : CooldownFECSchedulerWithFECOnly).should_send_repair conn_probe path_probe 1200 0 { bandwidth_probing_bps := 1000000 }).2.state_sending_repair =
        some { first_protected_metadata_for_epoch := some 7 }) := by
  constructor
  · exact cooldown_epoch_state_spec.1 _ _ conn_probe path_probe 1200 0
      { bandwidth_probing_bps := 1000000 } rfl
  · exact cooldown_epoch_state_spec.2 _ conn_probe path_probe 1200 0
      { bandwidth_probing_bps := 1000000 } _ rfl rfl (by decide)
